import Mathlib

/-!
A shallow embedding of the consumer360 retail analytics pipeline
(scripts 01_data_cleaning.py, 02_rfm_analysis.py, 03_market_basket.py,
04_load_to_postgres.py) and proofs about its cleaning, RFM segmentation,
basket-matrix and warehouse-load transforms.

Modelling conventions:
- a pandas DataFrame is a list of records (List Row);
- InvoiceDate is an exact integer count of minutes since a fixed epoch
  (the data has minute resolution); one day is 1440 minutes;
- UnitPrice and SalesAmount are exact integer counts of the minimal
  currency unit, so products and sums are exact;
- a nullable CustomerID is Option Int (none models NaN);
- pd.qcut (5 quantiles, labels=False, duplicates='drop') is modelled
  exactly: linear-interpolation quantile edges at p = i/5, duplicate
  edges dropped, right-closed bins with the lowest value included, and
  values that fall in no bin (which happens precisely when every edge
  collapses to a single one) mapped to none, pandas' NaN label.  Since
  every interpolation fraction is a multiple of 1/5, edges are stored
  multiplied by 5 so that all arithmetic stays in Int and is exact.
-/

namespace Retail

/-- One transaction line of the raw or cleaned table.  The derived
SalesAmount column is present on every record; the cleaner overwrites it
(pandas assigns the column, creating or replacing it). -/
structure Row where
  invoiceNo : String
  stockCode : String
  description : String
  quantity : Int
  invoiceDate : Int
  unitPrice : Int
  customerID : Option Int
  country : String
  salesAmount : Int
deriving DecidableEq, Repr

/-- Minutes in one day; pd.Timedelta(days=1) in the minute model. -/
def minutesPerDay : Int := 1440

/-- Python str(x).startswith("C"). -/
def startsWithC (s : String) : Bool := s.data.head? = some 'C'

/-! ## 01_data_cleaning.py -/

/-- Step 3: df.dropna(subset=["CustomerID"]). -/
def dropMissingCustomer (df : List Row) : List Row :=
  df.filter (fun r => r.customerID.isSome)

/-- Step 4: df[~df["InvoiceNo"].astype(str).str.startswith("C")]. -/
def dropCancelled (df : List Row) : List Row :=
  df.filter (fun r => !startsWithC r.invoiceNo)

/-- Step 5: df[df["Quantity"] > 0]. -/
def dropNonPositiveQty (df : List Row) : List Row :=
  df.filter (fun r => decide (0 < r.quantity))

/-- Step 6: df[df["UnitPrice"] > 0]. -/
def dropNonPositivePrice (df : List Row) : List Row :=
  df.filter (fun r => decide (0 < r.unitPrice))

/-- The four row-dropping steps of the cleaner, in source order. -/
def cleanFilter (df : List Row) : List Row :=
  dropNonPositivePrice (dropNonPositiveQty (dropCancelled (dropMissingCustomer df)))

/-- Step 8: df["SalesAmount"] = df["Quantity"] * df["UnitPrice"]. -/
def addSalesAmount (df : List Row) : List Row :=
  df.map (fun r => { r with salesAmount := r.quantity * r.unitPrice })

/-- The whole cleaning transform (steps 3-8; step 7, timestamp parsing,
is the identity in the minute model). -/
def cleanData (df : List Row) : List Row :=
  addSalesAmount (cleanFilter df)

/-! ## 02_rfm_analysis.py -/

/-- pandas Series.max over an Int column (only ever used on nonempty
columns; 0 is an arbitrary value for the empty list). -/
def colMax : List Int → Int
  | [] => 0
  | a :: t => t.foldl max a

/-- snapshot_date = df["InvoiceDate"].max() + pd.Timedelta(days=1). -/
def snapshotDate (df : List Row) : Int :=
  colMax (df.map (·.invoiceDate)) + minutesPerDay

/-- The group keys of df.groupby("CustomerID"): the distinct non-null
customer identifiers.  (pandas sorts the keys; the order of the groups
is immaterial to every property below, only the distinct-key set and
the per-key aggregates matter, so first/last-occurrence order is used.) -/
def distinctCustomers (df : List Row) : List Int :=
  (df.filterMap (·.customerID)).dedup

/-- The rows of one customer's group. -/
def custRows (df : List Row) (c : Int) : List Row :=
  df.filter (fun r => r.customerID = some c)

/-- That customer's latest InvoiceDate (x.max() inside the agg lambda). -/
def custLastDate (df : List Row) (c : Int) : Int :=
  colMax ((custRows df c).map (·.invoiceDate))

/-- Recency: (snapshot_date - x.max()).days; Timedelta.days is the floor
of the difference measured in days. -/
def recencyOf (df : List Row) (c : Int) : Int :=
  Int.fdiv (snapshotDate df - custLastDate df c) minutesPerDay

/-- Frequency: "InvoiceNo": "nunique", the number of distinct invoice
identifiers in the group. -/
def frequencyOf (df : List Row) (c : Int) : Nat :=
  ((custRows df c).map (·.invoiceNo)).dedup.length

/-- Monetary: "SalesAmount": "sum". -/
def monetaryOf (df : List Row) (c : Int) : Int :=
  ((custRows df c).map (·.salesAmount)).sum

/-- Ascending sort of a metric column, as numpy sorts it before taking
quantiles. -/
def sortedVals (l : List Int) : List Int :=
  l.insertionSort (· ≤ ·)

/-- Five times the linear-interpolation quantile of the sorted list v at
probability i/5 (i = 0..5): with n = v.length and h = (i/5)*(n-1) the
quantile is v[j] + (h - j)*(v[j+1] - v[j]) where j = floor h; here
h = i*(n-1)/5, so j = i*(n-1) / 5 and h - j = (i*(n-1) % 5)/5, and
multiplying through by 5 keeps everything in Int, exactly. -/
def scaledEdge (v : List Int) (i : Nat) : Int :=
  let n := v.length
  let h := i * (n - 1)
  let j := h / 5
  let lo := v.getD j 0
  let hi := v.getD (j + 1) lo
  5 * lo + (((h % 5) : Nat) : Int) * (hi - lo)

/-- The six quantile edges of pd.qcut(x, 5), each multiplied by 5. -/
def scaledEdges (l : List Int) : List Int :=
  [0, 1, 2, 3, 4, 5].map (scaledEdge (sortedVals l))

/-- Drop duplicate values from a nondecreasing list (duplicates='drop';
pandas keeps one edge per run of equal edges). -/
def dedupSorted : List Int → List Int
  | [] => []
  | [a] => [a]
  | a :: b :: t => if a = b then dedupSorted (b :: t) else a :: dedupSorted (b :: t)

/-- The bin edges of pd.qcut(l, 5, duplicates='drop'), scaled by 5. -/
def qcutBins (l : List Int) : List Int :=
  dedupSorted (scaledEdges l)

/-- searchsorted-left of x into the bin edges (the number of edges
strictly below x), forced to 1 when x equals the lowest edge, which is
pandas' include_lowest adjustment.  Edges are scaled by 5, so x is
compared as 5*x. -/
def qcutIds (l : List Int) (x : Int) : Nat :=
  if (qcutBins l).head? = some (5 * x) then 1
  else (qcutBins l).countP (fun e => decide (e < 5 * x))

/-- pd.qcut(l, 5, labels=False, duplicates='drop') evaluated at one value
x of l: the label is ids - 1, or NaN (none) when ids is 0 or equals the
number of edges - for a value of l the latter happens exactly when all
six edges collapsed to a single one. -/
def qcutBucket (l : List Int) (x : Int) : Option Nat :=
  if qcutIds l x = 0 ∨ qcutIds l x = (qcutBins l).length then none
  else some (qcutIds l x - 1)

/-- The quantile bucket of one customer's Recency. -/
def rBucket (df : List Row) (c : Int) : Option Nat :=
  qcutBucket ((distinctCustomers df).map (recencyOf df)) (recencyOf df c)

/-- The quantile bucket of one customer's Frequency. -/
def fBucket (df : List Row) (c : Int) : Option Nat :=
  qcutBucket ((distinctCustomers df).map (fun c => (frequencyOf df c : Int)))
    ((frequencyOf df c : Int))

/-- The quantile bucket of one customer's Monetary. -/
def mBucket (df : List Row) (c : Int) : Option Nat :=
  qcutBucket ((distinctCustomers df).map (monetaryOf df)) (monetaryOf df c)

/-- R_Score = 5 - bucket (NaN propagates: 5 - NaN is NaN). -/
def rScoreOf (df : List Row) (c : Int) : Option Nat :=
  (rBucket df c).map (fun b => 5 - b)

/-- F_Score = bucket + 1 (NaN propagates). -/
def fScoreOf (df : List Row) (c : Int) : Option Nat :=
  (fBucket df c).map (fun b => b + 1)

/-- M_Score = bucket + 1 (NaN propagates). -/
def mScoreOf (df : List Row) (c : Int) : Option Nat :=
  (mBucket df c).map (fun b => b + 1)

/-- astype(str) of one score cell: an int64 score prints as its digits,
a NaN cell prints as "nan". -/
def scoreStr : Option Nat → String
  | some n => Nat.repr n
  | none => "nan"

/-- RFM_Score = R_Score.astype(str) + F_Score.astype(str) + M_Score.astype(str). -/
def rfmStringOf (df : List Row) (c : Int) : String :=
  scoreStr (rScoreOf df c) ++ scoreStr (fScoreOf df c) ++ scoreStr (mScoreOf df c)

/-- Python lexicographic comparison a >= b on code-point lists. -/
def pyCharsGe : List Char → List Char → Bool
  | _, [] => true
  | [], _ :: _ => false
  | a :: ta, b :: tb => if a = b then pyCharsGe ta tb else decide (b < a)

/-- Python string comparison a >= b. -/
def pyStrGe (a b : String) : Bool := pyCharsGe a.data b.data

/-- The segment function of 02_rfm_analysis.py, a cascade of Python
string comparisons on RFM_Score with first match winning. -/
def segment (s : String) : String :=
  if pyStrGe s "444" then "Champions"
  else if pyStrGe s "333" then "Loyal Customers"
  else if pyStrGe s "222" then "Potential Loyalists"
  else "Churn Risk"

/-- One record of the segmenter's output table. -/
structure RFMRow where
  customerID : Int
  recency : Int
  frequency : Nat
  monetary : Int
  rScore : Option Nat
  fScore : Option Nat
  mScore : Option Nat
  rfmScore : String
  segmentLabel : String
deriving DecidableEq, Repr

/-- The whole segmenter: one output record per distinct customer. -/
def computeSegments (df : List Row) : List RFMRow :=
  (distinctCustomers df).map (fun c =>
    { customerID := c
      recency := recencyOf df c
      frequency := frequencyOf df c
      monetary := monetaryOf df c
      rScore := rScoreOf df c
      fScore := fScoreOf df c
      mScore := mScoreOf df c
      rfmScore := rfmStringOf df c
      segmentLabel := segment (rfmStringOf df c) })

/-- The range the spec asserts for a present (non-NaN) score cell. -/
def scoreInRange : Option Nat → Prop
  | none => True
  | some b => 1 ≤ b ∧ b ≤ 5

/-- The claim's reading of one score cell: a value exists and lies in
1..5 (false on pandas' NaN label). -/
def scoreIsDigit : Option Nat → Prop
  | none => False
  | some b => 1 ≤ b ∧ b ≤ 5

instance : DecidablePred scoreInRange := fun o =>
  match o with
  | none => isTrue trivial
  | some b => inferInstanceAs (Decidable (1 ≤ b ∧ b ≤ 5))

instance : DecidablePred scoreIsDigit := fun o =>
  match o with
  | none => isFalse fun h => h
  | some b => inferInstanceAs (Decidable (1 ≤ b ∧ b ≤ 5))

/-! ## 03_market_basket.py -/

/-- The distinct invoice identifiers of the cleaned data, the row index
of the basket matrix. -/
def invoiceIds (df : List Row) : List String :=
  (df.map (·.invoiceNo)).dedup

/-- The distinct item descriptions of the cleaned data, the column index
of the basket matrix. -/
def itemIds (df : List Row) : List String :=
  (df.map (·.description)).dedup

/-- The summed quantity of one (invoice, description) group. -/
def qtySum (df : List Row) (i d : String) : Int :=
  ((df.filter (fun r => r.invoiceNo = i && r.description = d)).map (·.quantity)).sum

/-- df.groupby(["InvoiceNo", "Description"])["Quantity"].sum(): one entry
per distinct (invoice, description) pair carrying its summed quantity. -/
def pairGroups (df : List Row) : List ((String × String) × Int) :=
  ((df.map (fun r => (r.invoiceNo, r.description))).dedup).map
    (fun k => (k, qtySum df k.1 k.2))

/-- .unstack().fillna(0): the cell of invoice i and item d is the group
sum when the pair occurs, otherwise the filled 0. -/
def unstackCell (g : List ((String × String) × Int)) (i d : String) : Int :=
  ((g.find? (fun p => p.1 = (i, d))).map (·.2)).getD 0

/-- .map(lambda x: x > 0): the boolean basket cell. -/
def basketCell (df : List Row) (i d : String) : Bool :=
  decide (0 < unstackCell (pairGroups df) i d)

/-- The boolean incidence matrix handed to apriori: one row per distinct
invoice, one column per distinct item description. -/
def basketMatrix (df : List Row) : List (List Bool) :=
  (invoiceIds df).map (fun i => (itemIds df).map (fun d => basketCell df i d))

/-! ## 04_load_to_postgres.py -/

/-- dim_customer: df[["CustomerID", "Country"]].drop_duplicates().
(pandas keeps the first occurrence of each pair; which occurrence is
kept does not affect the deduplicated content.) -/
def dimCustomer (df : List Row) : List (Option Int × String) :=
  (df.map (fun r => (r.customerID, r.country))).dedup

/-- dim_product: df[["StockCode", "Description"]].drop_duplicates(). -/
def dimProduct (df : List Row) : List (String × String) :=
  (df.map (fun r => (r.stockCode, r.description))).dedup

/-- fact_sales: the six-column projection of the cleaned table, one
output row per cleaned row. -/
def factSales (df : List Row) :
    List (String × Option Int × String × Int × Int × Int) :=
  df.map (fun r =>
    (r.invoiceNo, r.customerID, r.stockCode, r.quantity, r.salesAmount, r.invoiceDate))

/-! ## Concrete inputs used by witnesses and counterexamples -/

/-- A transaction line with the fields the pipeline inspects. -/
def mkRow (inv : String) (cust : Int) (date qty price : Int) : Row :=
  { invoiceNo := inv, stockCode := "S", description := "D", quantity := qty,
    invoiceDate := date, unitPrice := price, customerID := some cust,
    country := "UK", salesAmount := qty * price }

/-- A cleaned table with two customers whose three metrics all take two
distinct values, so no quantile bucket collapses. -/
def dfW : List Row :=
  [mkRow "A1" 1 0 1 1, mkRow "A2" 1 1440 1 1, mkRow "B1" 2 2880 5 1]

/-- The first output record of the segmenter on dfW. -/
def r1W : RFMRow :=
  { customerID := 1, recency := 2, frequency := 2, monetary := 2,
    rScore := some 1, fScore := some 5, mScore := some 1,
    rfmScore := "151", segmentLabel := "Churn Risk" }

/-- A cleaned table with two customers that both have exactly one
invoice: every customer's Frequency is 1, all six frequency quantile
edges coincide, duplicates='drop' leaves a single edge, and the
frequency score of every customer is pandas' NaN label. -/
def dfDup : List Row :=
  [mkRow "A1" 1 0 1 1, mkRow "B1" 2 1440 2 1]

/-- A raw table: one valid row, one null customer, one cancelled
invoice, one non-positive quantity, one non-positive price. -/
def dfRawEx : List Row :=
  [mkRow "536365" 17850 0 6 255,
   { mkRow "536366" 0 10 1 100 with customerID := none },
   mkRow "C536367" 13047 20 1 100,
   mkRow "536368" 13047 30 (-2) 100,
   mkRow "536369" 13047 40 3 0]

/-! ## Helper lemmas: cleaner -/

/-- The retention predicate of steps 3-6 in one Bool, associated the way
the four composed filters associate. -/
def keepRow (r : Row) : Bool :=
  r.customerID.isSome && !startsWithC r.invoiceNo &&
    decide (0 < r.quantity) && decide (0 < r.unitPrice)

lemma cleanFilter_eq_filter (df : List Row) :
    cleanFilter df = df.filter keepRow := by
  unfold cleanFilter dropNonPositivePrice dropNonPositiveQty dropCancelled
    dropMissingCustomer
  simp only [List.filter_filter]
  apply List.filter_congr
  intro r _
  simp [keepRow]
  cases r.customerID.isSome <;> cases startsWithC r.invoiceNo <;>
    cases (decide (0 < r.quantity)) <;> cases (decide (0 < r.unitPrice)) <;> simp

lemma mem_cleanFilter {df : List Row} {r : Row} :
    r ∈ cleanFilter df ↔
      r ∈ df ∧ r.customerID.isSome = true ∧ startsWithC r.invoiceNo = false ∧
        0 < r.quantity ∧ 0 < r.unitPrice := by
  rw [cleanFilter_eq_filter, List.mem_filter]
  unfold keepRow
  constructor
  · rintro ⟨hmem, hb⟩
    simp only [Bool.and_eq_true, Bool.not_eq_true', decide_eq_true_eq] at hb
    exact ⟨hmem, hb.1.1.1, hb.1.1.2, hb.1.2, hb.2⟩
  · rintro ⟨hmem, h1, h2, h3, h4⟩
    refine ⟨hmem, ?_⟩
    simp [h1, h2, h3, h4]

/-- The predicates of steps 3-6 never read the SalesAmount column, so
step 8 leaves them unchanged. -/
lemma keepRow_addSales (r : Row) :
    keepRow { r with salesAmount := r.quantity * r.unitPrice } = keepRow r := rfl

lemma cleanFilter_addSalesAmount (l : List Row) :
    cleanFilter (addSalesAmount l) = addSalesAmount (cleanFilter l) := by
  rw [cleanFilter_eq_filter, cleanFilter_eq_filter, addSalesAmount, addSalesAmount,
    List.filter_map]
  rfl

lemma addSalesAmount_idem (l : List Row) :
    addSalesAmount (addSalesAmount l) = addSalesAmount l := by
  unfold addSalesAmount
  rw [List.map_map]
  rfl

lemma cleanFilter_idem (l : List Row) :
    cleanFilter (cleanFilter l) = cleanFilter l := by
  rw [cleanFilter_eq_filter, cleanFilter_eq_filter, List.filter_filter]
  apply List.filter_congr
  intro r _
  cases keepRow r <;> simp

/-! ## Claim theorems: cleaner -/

/-- C4.  A raw row is retained by the cleaner's filtering steps exactly
when its customer identifier is non-null, its invoice identifier does
not start with "C", its quantity is strictly positive and its unit
price is strictly positive; membership in the input is the only other
requirement, so no further row-dropping criterion exists.  The full
cleaner output consists of exactly the retained rows with the derived
SalesAmount column overwritten. -/
theorem cleaner_retains_iff (df : List Row) (r : Row) :
    (r ∈ cleanFilter df ↔
      r ∈ df ∧ r.customerID.isSome = true ∧ startsWithC r.invoiceNo = false ∧
        0 < r.quantity ∧ 0 < r.unitPrice) ∧
    cleanData df = addSalesAmount (cleanFilter df) :=
  ⟨mem_cleanFilter, rfl⟩

/-- C5.  Every row of the cleaner's output has a non-null customer
identifier, an invoice identifier not starting with "C", strictly
positive quantity and unit price, and a SalesAmount equal to
quantity times unit price exactly, hence strictly positive. -/
theorem cleaned_row_invariant (df : List Row) (r : Row) (h : r ∈ cleanData df) :
    r.customerID.isSome = true ∧ startsWithC r.invoiceNo = false ∧
      0 < r.quantity ∧ 0 < r.unitPrice ∧
      r.salesAmount = r.quantity * r.unitPrice ∧ 0 < r.salesAmount := by
  unfold cleanData addSalesAmount at h
  rw [List.mem_map] at h
  obtain ⟨r0, hr0, rfl⟩ := h
  obtain ⟨_, h1, h2, h3, h4⟩ := mem_cleanFilter.mp hr0
  exact ⟨h1, h2, h3, h4, rfl, mul_pos h3 h4⟩

/-- C5 witness: the invariant evaluated on the surviving row of the
five-row raw table. -/
theorem cleaned_row_invariant_witness :
    (mkRow "536365" 17850 0 6 255).customerID.isSome = true ∧
      startsWithC (mkRow "536365" 17850 0 6 255).invoiceNo = false ∧
      0 < (mkRow "536365" 17850 0 6 255).quantity ∧
      0 < (mkRow "536365" 17850 0 6 255).unitPrice ∧
      (mkRow "536365" 17850 0 6 255).salesAmount =
        (mkRow "536365" 17850 0 6 255).quantity *
          (mkRow "536365" 17850 0 6 255).unitPrice ∧
      0 < (mkRow "536365" 17850 0 6 255).salesAmount :=
  cleaned_row_invariant dfRawEx (mkRow "536365" 17850 0 6 255) (by decide)

/-- C6.  Cleaning is idempotent: applying the cleaning transform to its
own output returns the output unchanged (even as a list, so also as a
set of rows). -/
theorem cleaning_idempotent (df : List Row) :
    cleanData (cleanData df) = cleanData df := by
  unfold cleanData
  rw [cleanFilter_addSalesAmount, addSalesAmount_idem, cleanFilter_idem]

/-! ## Helper lemmas: basket miner -/

lemma find?_eq_self_of_mem {l : List (String × String)} {k : String × String}
    (h : k ∈ l) : l.find? (fun x => decide (x = k)) = some k := by
  induction l with
  | nil => cases h
  | cons a t ih =>
    by_cases hak : a = k
    · subst hak
      simp [List.find?_cons]
    · have ht : k ∈ t := by
        rcases List.mem_cons.mp h with h' | h'
        · exact absurd h'.symm hak
        · exact h'
      simp [List.find?_cons, hak, ih ht]

lemma pairGroups_find?_of_mem {df : List Row} {i d : String}
    (h : (i, d) ∈ (df.map (fun r => (r.invoiceNo, r.description))).dedup) :
    (pairGroups df).find? (fun p => p.1 = (i, d)) = some ((i, d), qtySum df i d) := by
  unfold pairGroups
  rw [List.find?_map]
  show (((df.map (fun r => (r.invoiceNo, r.description))).dedup.find?
      (fun x => decide (x = (i, d)))).map
        (fun k => (k, qtySum df k.1 k.2))) = _
  rw [find?_eq_self_of_mem h]
  rfl

lemma pairGroups_find?_of_not_mem {df : List Row} {i d : String}
    (h : (i, d) ∉ (df.map (fun r => (r.invoiceNo, r.description))).dedup) :
    (pairGroups df).find? (fun p => p.1 = (i, d)) = none := by
  rw [List.find?_eq_none]
  intro p hp
  rw [pairGroups, List.mem_map] at hp
  obtain ⟨k, hk, rfl⟩ := hp
  intro hpk
  rw [decide_eq_true_eq] at hpk
  exact h (hpk ▸ hk)

lemma unstackCell_eq_qtySum (df : List Row) (i d : String) :
    unstackCell (pairGroups df) i d = qtySum df i d := by
  by_cases h : (i, d) ∈ (df.map (fun r => (r.invoiceNo, r.description))).dedup
  · rw [unstackCell, pairGroups_find?_of_mem h]
    rfl
  · rw [unstackCell, pairGroups_find?_of_not_mem h]
    have hnil : df.filter (fun r => r.invoiceNo = i && r.description = d) = [] := by
      rw [List.filter_eq_nil_iff]
      intro r hr hpr
      simp only [Bool.and_eq_true, decide_eq_true_eq] at hpr
      refine h ?_
      rw [List.mem_dedup, List.mem_map]
      exact ⟨r, hr, by rw [hpr.1, hpr.2]⟩
    rw [qtySum, hnil]
    rfl

/-! ## Claim theorems: basket miner and warehouse loader -/

/-- C7.  The basket matrix has exactly one row per distinct invoice
identifier of the cleaned data and one column per distinct item
description, and the cell of invoice i and item d - produced by the
groupby-sum, unstack, fillna(0), x > 0 chain - is true exactly when the
summed quantity over the matching cleaned rows is strictly positive. -/
theorem basket_matrix_spec (df : List Row) :
    (invoiceIds df).Nodup ∧
    (∀ s, s ∈ invoiceIds df ↔ ∃ r ∈ df, r.invoiceNo = s) ∧
    (itemIds df).Nodup ∧
    (∀ s, s ∈ itemIds df ↔ ∃ r ∈ df, r.description = s) ∧
    (basketMatrix df).length = (invoiceIds df).length ∧
    (basketMatrix df).map List.length =
      List.replicate (invoiceIds df).length (itemIds df).length ∧
    (∀ i d, basketCell df i d = true ↔
      0 < ((df.filter (fun r => r.invoiceNo = i && r.description = d)).map
        (·.quantity)).sum) := by
  refine ⟨List.nodup_dedup _, ?_, List.nodup_dedup _, ?_, ?_, ?_, ?_⟩
  · intro s
    rw [invoiceIds, List.mem_dedup, List.mem_map]
  · intro s
    rw [itemIds, List.mem_dedup, List.mem_map]
  · rw [basketMatrix, List.length_map]
  · rw [List.eq_replicate_iff]
    constructor
    · rw [basketMatrix, List.length_map, List.length_map]
    · intro n hn
      rw [basketMatrix, List.map_map, List.mem_map] at hn
      obtain ⟨i, _, rfl⟩ := hn
      exact List.length_map _ _
  · intro i d
    rw [basketCell, unstackCell_eq_qtySum, qtySum, decide_eq_true_eq]

/-- C9.  The warehouse loader's dim_customer table has one row per
distinct (CustomerID, Country) pair of the cleaned data, and its
fact_sales table has exactly one row per cleaned row. -/
theorem warehouse_row_counts (df : List Row) :
    (dimCustomer df).length =
      ((df.map (fun r => (r.customerID, r.country))).toFinset).card ∧
    (factSales df).length = df.length := by
  constructor
  · rw [dimCustomer, List.card_toFinset]
  · rw [factSales, List.length_map]

/-! ## Helper lemmas: segmenter -/

lemma le_foldl_max (t : List Int) (a : Int) : a ≤ t.foldl max a := by
  induction t generalizing a with
  | nil => exact le_refl a
  | cons x xs ih => exact le_trans (le_max_left a x) (ih (max a x))

lemma mem_le_foldl_max {t : List Int} {x : Int} (a : Int) (hx : x ∈ t) :
    x ≤ t.foldl max a := by
  induction t generalizing a with
  | nil => cases hx
  | cons y ys ih =>
    rcases List.mem_cons.mp hx with h | h
    · subst h
      exact le_trans (le_max_right a x) (le_foldl_max ys (max a x))
    · exact ih (max a y) h

lemma foldl_max_mem (t : List Int) (a : Int) :
    t.foldl max a = a ∨ t.foldl max a ∈ t := by
  induction t generalizing a with
  | nil => exact Or.inl rfl
  | cons y ys ih =>
    rcases ih (max a y) with h | h
    · rcases max_choice a y with hm | hm
      · exact Or.inl (by rw [List.foldl_cons, h, hm])
      · exact Or.inr (by rw [List.foldl_cons, h, hm]; exact List.mem_cons_self y ys)
    · exact Or.inr (List.mem_cons_of_mem y h)

lemma le_colMax {l : List Int} {x : Int} (hx : x ∈ l) : x ≤ colMax l := by
  cases l with
  | nil => cases hx
  | cons a t =>
    rcases List.mem_cons.mp hx with h | h
    · subst h
      exact le_foldl_max t x
    · exact mem_le_foldl_max a h

lemma colMax_mem {l : List Int} (h : l ≠ []) : colMax l ∈ l := by
  cases l with
  | nil => exact absurd rfl h
  | cons a t =>
    rcases foldl_max_mem t a with h' | h'
    · rw [colMax, h']
      exact List.mem_cons_self a t
    · exact List.mem_cons_of_mem a h'

lemma fdiv_day_bounds (D : Int) :
    minutesPerDay * Int.fdiv D minutesPerDay ≤ D ∧
      D < minutesPerDay * (Int.fdiv D minutesPerDay + 1) := by
  have h1 := Int.fmod_add_fdiv D minutesPerDay
  have h2 : 0 ≤ Int.fmod D minutesPerDay :=
    Int.fmod_nonneg' D (by unfold minutesPerDay; omega)
  have h3 : Int.fmod D minutesPerDay < minutesPerDay :=
    Int.fmod_lt_of_pos D (by unfold minutesPerDay; omega)
  unfold minutesPerDay at h1 h2 h3 ⊢
  omega

lemma dedupSorted_length_le : ∀ l : List Int, (dedupSorted l).length ≤ l.length
  | [] => le_refl _
  | [_] => le_refl _
  | a :: b :: t => by
    rw [dedupSorted]
    have ih := dedupSorted_length_le (b :: t)
    by_cases hab : a = b
    · rw [if_pos hab]
      simp only [List.length_cons] at ih ⊢
      omega
    · rw [if_neg hab]
      simp only [List.length_cons] at ih ⊢
      omega

lemma qcutBucket_some_le {l : List Int} {x : Int} {b : Nat}
    (h : qcutBucket l x = some b) : b ≤ 4 := by
  unfold qcutBucket at h
  by_cases hc : qcutIds l x = 0 ∨ qcutIds l x = (qcutBins l).length
  · rw [if_pos hc] at h
    cases h
  · rw [if_neg hc] at h
    have hb : qcutIds l x - 1 = b := by
      injection h
    push_neg at hc
    have hlen : (qcutBins l).length ≤ 6 := by
      have h1 := dedupSorted_length_le (scaledEdges l)
      have h2 : (scaledEdges l).length = 6 := by
        rw [scaledEdges, List.length_map]
        rfl
      rw [qcutBins]
      omega
    have hids : qcutIds l x = 1 ∨ qcutIds l x ≤ (qcutBins l).length := by
      rw [qcutIds]
      by_cases hh : (qcutBins l).head? = some (5 * x)
      · rw [if_pos hh]
        exact Or.inl rfl
      · rw [if_neg hh]
        exact Or.inr (List.countP_le_length _)
    rcases hids with hids | hids <;> omega

lemma rBucket_some_le {df : List Row} {c : Int} {b : Nat}
    (h : rBucket df c = some b) : b ≤ 4 := by
  rw [rBucket] at h
  exact qcutBucket_some_le h

lemma fBucket_some_le {df : List Row} {c : Int} {b : Nat}
    (h : fBucket df c = some b) : b ≤ 4 := by
  rw [fBucket] at h
  exact qcutBucket_some_le h

lemma mBucket_some_le {df : List Row} {c : Int} {b : Nat}
    (h : mBucket df c = some b) : b ≤ 4 := by
  rw [mBucket] at h
  exact qcutBucket_some_le h

lemma rScore_some_range {df : List Row} {c : Int} {a : Nat}
    (h : rScoreOf df c = some a) : 1 ≤ a ∧ a ≤ 5 := by
  rw [rScoreOf] at h
  cases hb : rBucket df c with
  | none => rw [hb] at h; cases h
  | some b =>
    rw [hb, Option.map_some'] at h
    have h4 := rBucket_some_le hb
    injection h with h'
    omega

lemma fScore_some_range {df : List Row} {c : Int} {a : Nat}
    (h : fScoreOf df c = some a) : 1 ≤ a ∧ a ≤ 5 := by
  rw [fScoreOf] at h
  cases hb : fBucket df c with
  | none => rw [hb] at h; cases h
  | some b =>
    rw [hb, Option.map_some'] at h
    have h4 := fBucket_some_le hb
    injection h with h'
    omega

lemma mScore_some_range {df : List Row} {c : Int} {a : Nat}
    (h : mScoreOf df c = some a) : 1 ≤ a ∧ a ≤ 5 := by
  rw [mScoreOf] at h
  cases hb : mBucket df c with
  | none => rw [hb] at h; cases h
  | some b =>
    rw [hb, Option.map_some'] at h
    have h4 := mBucket_some_le hb
    injection h with h'
    omega

/-- The composite of three digit scores in 1..5 has length 3 and its
Python lexicographic comparisons against "444", "333", "222" agree with
numeric comparison of the corresponding three-digit numbers. -/
lemma digit_triple_facts (a b c : Nat)
    (ha1 : 1 ≤ a) (ha5 : a ≤ 5) (hb1 : 1 ≤ b) (hb5 : b ≤ 5)
    (hc1 : 1 ≤ c) (hc5 : c ≤ 5) :
    (Nat.repr a ++ Nat.repr b ++ Nat.repr c).length = 3 ∧
    pyStrGe (Nat.repr a ++ Nat.repr b ++ Nat.repr c) "444"
      = decide (444 ≤ 100 * a + 10 * b + c) ∧
    pyStrGe (Nat.repr a ++ Nat.repr b ++ Nat.repr c) "333"
      = decide (333 ≤ 100 * a + 10 * b + c) ∧
    pyStrGe (Nat.repr a ++ Nat.repr b ++ Nat.repr c) "222"
      = decide (222 ≤ 100 * a + 10 * b + c) := by
  interval_cases a <;> interval_cases b <;> interval_cases c <;> decide

/-! ## Claim theorems: segmenter -/

/-- C1.  Every record of the segmenter's output carries the label
computed by the segment function from its composite score string alone,
and that function evaluates the Python lexicographic comparisons
against "444", "333", "222" in fixed priority order with first match
winning: at least "444" gives Champions, else at least "333" gives
Loyal Customers, else at least "222" gives Potential Loyalists, else
Churn Risk. -/
theorem segment_assignment (df : List Row) (r : RFMRow)
    (h : r ∈ computeSegments df) :
    r.segmentLabel = segment r.rfmScore ∧
    (pyStrGe r.rfmScore "444" = true → r.segmentLabel = "Champions") ∧
    (pyStrGe r.rfmScore "444" = false → pyStrGe r.rfmScore "333" = true →
      r.segmentLabel = "Loyal Customers") ∧
    (pyStrGe r.rfmScore "444" = false → pyStrGe r.rfmScore "333" = false →
      pyStrGe r.rfmScore "222" = true → r.segmentLabel = "Potential Loyalists") ∧
    (pyStrGe r.rfmScore "444" = false → pyStrGe r.rfmScore "333" = false →
      pyStrGe r.rfmScore "222" = false → r.segmentLabel = "Churn Risk") := by
  rw [computeSegments, List.mem_map] at h
  obtain ⟨c, hc, rfl⟩ := h
  refine ⟨rfl, ?_, ?_, ?_, ?_⟩
  · intro h1
    simp [segment, h1]
  · intro h1 h2
    simp [segment, h1, h2]
  · intro h1 h2 h3
    simp [segment, h1, h2, h3]
  · intro h1 h2 h3
    simp [segment, h1, h2, h3]

/-- C1 witness: the first record of the segmenter on dfW, whose
composite "151" is below all three thresholds and is labelled
Churn Risk. -/
theorem segment_assignment_witness :
    r1W.segmentLabel = segment r1W.rfmScore ∧ r1W.segmentLabel = "Churn Risk" :=
  ⟨(segment_assignment dfW r1W (by decide)).1,
   (segment_assignment dfW r1W (by decide)).2.2.2.2 (by decide) (by decide) (by decide)⟩

/-- C2 counterexample: on the cleaned table dfDup every customer has
exactly one invoice, so the Frequency metric is constant, all six
frequency quantile edges coincide, duplicates='drop' leaves a single
edge, and pandas assigns the NaN label: the frequency score of the
output records is not an integer in 1..5. -/
theorem rfm_scores_counterexample :
    ¬ (∀ r ∈ computeSegments dfDup, scoreIsDigit r.fScore) := by decide

/-- C2 amended: every output record's scores derive from that
customer's quantile bucket exactly as claimed - frequency and monetary
score are bucket index plus 1, recency score is 5 minus bucket index,
and recency score is 5 exactly when the recency bucket index is 0 -
and every score that is present (not pandas' NaN label, which occurs
exactly when a metric's quantile edges all collapse) lies in 1..5. -/
theorem rfm_scores_amended (df : List Row) (r : RFMRow)
    (h : r ∈ computeSegments df) :
    r.rScore = (rBucket df r.customerID).map (fun b => 5 - b) ∧
    r.fScore = (fBucket df r.customerID).map (fun b => b + 1) ∧
    r.mScore = (mBucket df r.customerID).map (fun b => b + 1) ∧
    scoreInRange r.rScore ∧ scoreInRange r.fScore ∧ scoreInRange r.mScore ∧
    (r.rScore = some 5 ↔ rBucket df r.customerID = some 0) := by
  rw [computeSegments, List.mem_map] at h
  obtain ⟨c, hc, rfl⟩ := h
  refine ⟨rfl, rfl, rfl, ?_, ?_, ?_, ?_⟩
  · show scoreInRange (rScoreOf df c)
    cases ha : rScoreOf df c with
    | none => exact trivial
    | some a => exact rScore_some_range ha
  · show scoreInRange (fScoreOf df c)
    cases ha : fScoreOf df c with
    | none => exact trivial
    | some a => exact fScore_some_range ha
  · show scoreInRange (mScoreOf df c)
    cases ha : mScoreOf df c with
    | none => exact trivial
    | some a => exact mScore_some_range ha
  · show rScoreOf df c = some 5 ↔ rBucket df c = some 0
    rw [rScoreOf]
    cases hb : rBucket df c with
    | none => simp
    | some b =>
      have h4 := rBucket_some_le hb
      rw [Option.map_some']
      constructor
      · intro he
        injection he with he'
        have hb0 : b = 0 := by omega
        rw [hb0]
      · intro he
        injection he with he'
        rw [he']

/-- C2 witness: the amended statement evaluated on the first record of
the segmenter on dfW, where no quantile bucket collapses. -/
theorem rfm_scores_amended_witness :
    r1W.rScore = (rBucket dfW r1W.customerID).map (fun b => 5 - b) ∧
    r1W.fScore = (fBucket dfW r1W.customerID).map (fun b => b + 1) ∧
    r1W.mScore = (mBucket dfW r1W.customerID).map (fun b => b + 1) ∧
    scoreInRange r1W.rScore ∧ scoreInRange r1W.fScore ∧ scoreInRange r1W.mScore ∧
    (r1W.rScore = some 5 ↔ rBucket dfW r1W.customerID = some 0) :=
  rfm_scores_amended dfW r1W (by decide)

/-- C3.  The snapshot instant is one day past the largest timestamp of
the cleaned table (an upper bound of all rows, attained by one of
them); each output record's recency counts the whole days between the
snapshot instant and that customer's latest timestamp (again an
attained upper bound of the customer's rows); its frequency is the
number of distinct invoice identifiers of the customer's rows; and its
monetary is the sum of their SalesAmount.  All quantities are derived
from the input alone - the embedding is a pure function of df, with no
wall-clock parameter. -/
theorem rfm_snapshot_aggregation (df : List Row) (r : RFMRow)
    (h : r ∈ computeSegments df) :
    (∀ q ∈ df, q.invoiceDate + minutesPerDay ≤ snapshotDate df) ∧
    (∃ q ∈ df, snapshotDate df = q.invoiceDate + minutesPerDay) ∧
    minutesPerDay * r.recency ≤ snapshotDate df - custLastDate df r.customerID ∧
    snapshotDate df - custLastDate df r.customerID < minutesPerDay * (r.recency + 1) ∧
    (∃ q ∈ custRows df r.customerID, custLastDate df r.customerID = q.invoiceDate) ∧
    (∀ q ∈ custRows df r.customerID, q.invoiceDate ≤ custLastDate df r.customerID) ∧
    r.frequency = ((custRows df r.customerID).map (·.invoiceNo)).toFinset.card ∧
    r.monetary = ((custRows df r.customerID).map (·.salesAmount)).sum := by
  rw [computeSegments, List.mem_map] at h
  obtain ⟨c, hc, rfl⟩ := h
  rw [distinctCustomers, List.mem_dedup, List.mem_filterMap] at hc
  obtain ⟨q0, hq0, hq0c⟩ := hc
  have hq0' : q0 ∈ custRows df c := by
    rw [custRows, List.mem_filter]
    exact ⟨hq0, by simp [hq0c]⟩
  refine ⟨?_, ?_, ?_, ?_, ?_, ?_, ?_, ?_⟩
  · intro q hq
    have h1 : q.invoiceDate ≤ colMax (df.map (·.invoiceDate)) :=
      le_colMax (List.mem_map_of_mem _ hq)
    rw [snapshotDate]
    unfold minutesPerDay
    omega
  · have hne : df.map (·.invoiceDate) ≠ [] := by
      intro hnil
      rw [List.map_eq_nil_iff] at hnil
      subst hnil
      cases hq0
    have hmem := colMax_mem hne
    rw [List.mem_map] at hmem
    obtain ⟨q, hq, hqe⟩ := hmem
    exact ⟨q, hq, by rw [snapshotDate, hqe]⟩
  · show minutesPerDay * recencyOf df c ≤ snapshotDate df - custLastDate df c
    rw [recencyOf]
    exact (fdiv_day_bounds _).1
  · show snapshotDate df - custLastDate df c < minutesPerDay * (recencyOf df c + 1)
    rw [recencyOf]
    exact (fdiv_day_bounds _).2
  · have hne : (custRows df c).map (·.invoiceDate) ≠ [] := by
      intro hnil
      rw [List.map_eq_nil_iff] at hnil
      rw [hnil] at hq0'
      cases hq0'
    have hmem := colMax_mem hne
    rw [List.mem_map] at hmem
    obtain ⟨q, hq, hqe⟩ := hmem
    exact ⟨q, hq, hqe.symm⟩
  · intro q hq
    show q.invoiceDate ≤ custLastDate df c
    exact le_colMax (List.mem_map_of_mem _ hq)
  · show frequencyOf df c = _
    rw [frequencyOf]
    exact (List.card_toFinset _).symm
  · rfl

/-- C3 witness: the snapshot, recency bounds, aggregates and attained
maxima evaluated on dfW and its first output record. -/
theorem rfm_snapshot_aggregation_witness :
    (∃ q ∈ dfW, snapshotDate dfW = q.invoiceDate + minutesPerDay) ∧
    minutesPerDay * r1W.recency ≤ snapshotDate dfW - custLastDate dfW r1W.customerID ∧
    snapshotDate dfW - custLastDate dfW r1W.customerID <
      minutesPerDay * (r1W.recency + 1) ∧
    (∃ q ∈ custRows dfW r1W.customerID,
      custLastDate dfW r1W.customerID = q.invoiceDate) ∧
    r1W.frequency = ((custRows dfW r1W.customerID).map (·.invoiceNo)).toFinset.card ∧
    r1W.monetary = ((custRows dfW r1W.customerID).map (·.salesAmount)).sum ∧
    (mkRow "A1" 1 0 1 1).invoiceDate + minutesPerDay ≤ snapshotDate dfW := by
  have H := rfm_snapshot_aggregation dfW r1W (by decide)
  exact ⟨H.2.1, H.2.2.1, H.2.2.2.1, H.2.2.2.2.1, H.2.2.2.2.2.2.1,
    H.2.2.2.2.2.2.2, H.1 _ (by decide)⟩

/-- C8.  The segmenter is total: the empty cleaned input yields the
empty output, and on any input it emits exactly one record per
distinct non-null customer identifier of the input, in particular
never failing. -/
theorem segmenter_empty_and_shape :
    computeSegments ([] : List Row) = [] ∧
    (∀ df : List Row,
      (computeSegments df).map (fun r => r.customerID) = distinctCustomers df) ∧
    (∀ df : List Row, (distinctCustomers df).Nodup) ∧
    (∀ (df : List Row) (c : Int),
      c ∈ distinctCustomers df ↔ ∃ q ∈ df, q.customerID = some c) := by
  refine ⟨rfl, ?_, ?_, ?_⟩
  · intro df
    rw [computeSegments, List.map_map]
    show (distinctCustomers df).map (fun c => c) = distinctCustomers df
    exact List.map_id' _
  · intro df
    exact List.nodup_dedup _
  · intro df c
    rw [distinctCustomers, List.mem_dedup, List.mem_filterMap]

/-- C10 counterexample: on dfDup the frequency score is pandas' NaN
label, which prints as "nan", so the composite score string of the
first output record is "1nan1" - not 3 characters long. -/
theorem composite_string_counterexample :
    ¬ (∀ r ∈ computeSegments dfDup, r.rfmScore.length = 3) := by decide

/-- C10 amended: whenever all three scores of an output record are
present (no fully-collapsed quantile edges, pandas' NaN label absent),
each is a single decimal digit in 1..5, the composite string has
exactly three characters, and Python lexicographic comparison of it
against "444", "333", "222" coincides with numeric comparison of the
corresponding three-digit numbers. -/
theorem composite_string_amended (df : List Row) (r : RFMRow)
    (h : r ∈ computeSegments df) (hr : r.rScore.isSome = true)
    (hf : r.fScore.isSome = true) (hm : r.mScore.isSome = true) :
    r.rfmScore.length = 3 ∧
    pyStrGe r.rfmScore "444" =
      decide (444 ≤ 100 * r.rScore.getD 0 + 10 * r.fScore.getD 0 + r.mScore.getD 0) ∧
    pyStrGe r.rfmScore "333" =
      decide (333 ≤ 100 * r.rScore.getD 0 + 10 * r.fScore.getD 0 + r.mScore.getD 0) ∧
    pyStrGe r.rfmScore "222" =
      decide (222 ≤ 100 * r.rScore.getD 0 + 10 * r.fScore.getD 0 + r.mScore.getD 0) := by
  rw [computeSegments, List.mem_map] at h
  obtain ⟨c, hc, rfl⟩ := h
  obtain ⟨a, ha⟩ := Option.isSome_iff_exists.mp hr
  obtain ⟨b, hb⟩ := Option.isSome_iff_exists.mp hf
  obtain ⟨e, he⟩ := Option.isSome_iff_exists.mp hm
  have ha' : rScoreOf df c = some a := ha
  have hb' : fScoreOf df c = some b := hb
  have he' : mScoreOf df c = some e := he
  obtain ⟨ha1, ha5⟩ := rScore_some_range ha'
  obtain ⟨hb1, hb5⟩ := fScore_some_range hb'
  obtain ⟨he1, he5⟩ := mScore_some_range he'
  have hs : rfmStringOf df c = Nat.repr a ++ Nat.repr b ++ Nat.repr e := by
    rw [rfmStringOf, ha', hb', he']
    rfl
  show (rfmStringOf df c).length = 3 ∧
    pyStrGe (rfmStringOf df c) "444" =
      decide (444 ≤ 100 * (rScoreOf df c).getD 0 + 10 * (fScoreOf df c).getD 0 +
        (mScoreOf df c).getD 0) ∧
    pyStrGe (rfmStringOf df c) "333" =
      decide (333 ≤ 100 * (rScoreOf df c).getD 0 + 10 * (fScoreOf df c).getD 0 +
        (mScoreOf df c).getD 0) ∧
    pyStrGe (rfmStringOf df c) "222" =
      decide (222 ≤ 100 * (rScoreOf df c).getD 0 + 10 * (fScoreOf df c).getD 0 +
        (mScoreOf df c).getD 0)
  rw [hs, ha', hb', he']
  simp only [Option.getD_some]
  exact digit_triple_facts a b e ha1 ha5 hb1 hb5 he1 he5

/-- C10 witness: the amended statement evaluated on the first record of
the segmenter on dfW, whose composite "151" compares below all three
thresholds exactly as the number 151 does. -/
theorem composite_string_amended_witness :
    r1W.rfmScore.length = 3 ∧
    pyStrGe r1W.rfmScore "444" =
      decide (444 ≤ 100 * r1W.rScore.getD 0 + 10 * r1W.fScore.getD 0 +
        r1W.mScore.getD 0) ∧
    pyStrGe r1W.rfmScore "333" =
      decide (333 ≤ 100 * r1W.rScore.getD 0 + 10 * r1W.fScore.getD 0 +
        r1W.mScore.getD 0) ∧
    pyStrGe r1W.rfmScore "222" =
      decide (222 ≤ 100 * r1W.rScore.getD 0 + 10 * r1W.fScore.getD 0 +
        r1W.mScore.getD 0) :=
  composite_string_amended dfW r1W (by decide) (by decide) (by decide) (by decide)

end Retail
